import Mathlib

/- Verification of the two installer scripts of the repository:
   docs/kiet/setup_scripts/install_aikbt.py and docs/kiet/setup_scripts/setup_tools.py.

   Part 1 below gives the definitions (a shallow embedding of the scripts),
   part 2 the theorems about them. -/

/- ===================== Part 1: definitions ===================== -/

/-- Characters at which Python str.splitlines breaks a string: LF, CR,
vertical tab, form feed, the file, group and record separators, NEL, and
the Unicode line and paragraph separators U+2028 and U+2029. -/
def pyIsLineBreak (c : Char) : Bool :=
  (['\n', '\r', '\x0b', '\x0c', '\x1c', '\x1d', '\x1e', '\x85',
    '\u2028', '\u2029']).contains c

/-- Characters stripped by Python str.strip with no arguments: every
character whose str.isspace is true, that is the ASCII whitespace and
separator controls, NEL, no-break space, ogham space mark, the U+2000
to U+200A spaces, the U+2028 and U+2029 separators, and the narrow,
medium-mathematical and ideographic spaces. -/
def pyIsSpace (c : Char) : Bool :=
  ([' ', '\t', '\n', '\r', '\x0b', '\x0c', '\x1c', '\x1d', '\x1e', '\x1f', '\x85', '\xa0',
    '\u1680', '\u2000', '\u2001', '\u2002', '\u2003', '\u2004', '\u2005', '\u2006',
    '\u2007', '\u2008', '\u2009', '\u200a', '\u2028', '\u2029', '\u202f', '\u205f',
    '\u3000']).contains c

/-- Worker for the model of Python str.splitlines. The accumulator holds the
current line reversed; crMode records that the previous character was a
carriage return whose line has already been emitted, so that a directly
following line feed is swallowed (the CRLF pair counts as one break). -/
def pySplitlinesAux : List Char → List Char → Bool → List (List Char)
  | [], acc, _ => if acc.isEmpty then [] else [acc.reverse]
  | c :: rest, acc, crMode =>
      if crMode ∧ c = '\n' then pySplitlinesAux rest [] false
      else if c = '\r' then acc.reverse :: pySplitlinesAux rest [] true
      else if pyIsLineBreak c then acc.reverse :: pySplitlinesAux rest [] false
      else pySplitlinesAux rest (c :: acc) false

/-- Model of Python str.splitlines on decoded text. -/
def pySplitlines (s : List Char) : List (List Char) := pySplitlinesAux s [] false

/-- Model of Python s.endswith applied to a single linefeed character. -/
def pyEndsWithLF (s : List Char) : Bool := s.getLast? == some '\n'

/-- Model of Python str.strip with no arguments. -/
def pyStrip (s : List Char) : List Char :=
  ((s.dropWhile pyIsSpace).reverse.dropWhile pyIsSpace).reverse

/-- Model of str.lower as used on the ASCII results of platform.system. -/
def asciiLower (c : Char) : Char :=
  if 'A' ≤ c ∧ c ≤ 'Z' then Char.ofNat (c.toNat + 32) else c

namespace InstallAikbt

/-- State of the one file ensure_line_in_file works on: its decoded content
(none when the file is absent) and whether its parent directory exists. -/
structure FileState where
  content : Option (List Char)
  parentExists : Bool
deriving DecidableEq

/-- The content of the file, reading an absent file as empty. -/
def FileState.contentD (st : FileState) : List Char := st.content.getD []

/-- Model of ensure_line_in_file from install_aikbt.py (lines 18-33).
It creates the parent directory, reads the existing lines when the file
exists, returns unchanged when the line is already present verbatim, and
otherwise appends the line, preceded by a separator linefeed when the
existing lines are nonempty and the content does not end with a linefeed.
Opening the file in append mode creates it when it is absent. -/
def ensure_line_in_file (st : FileState) (line : List Char) : FileState :=
  match st.content with
  | some existingText =>
      if line ∈ pySplitlines existingText then ⟨some existingText, true⟩
      else
        let sep : List Char :=
          if pySplitlines existingText ≠ [] ∧ pyEndsWithLF existingText = false
          then ['\n'] else []
        ⟨some (existingText ++ sep ++ (line ++ ['\n'])), true⟩
  | none => ⟨some (line ++ ['\n']), true⟩

end InstallAikbt

/- Model of the observable behaviour of the scripts towards the operating
system. A Sys is an oracle describing the environment a run sees: the
effective user id, which executables are on PATH, the exit code each external
command would return, the size a downloaded file has after its download
command ran, which files and directories exist, the platform name, the
running interpreter and the home directory. The environment is treated as
constant during one run. -/

/-- An external command as an argument vector. -/
abbrev Cmd := List String

/-- Environment oracle for one run of a script. -/
structure Sys where
  euid : Nat
  hasGeteuid : Bool
  pathHas : String → Bool
  exitCode : Cmd → Nat
  sizeAfter : String → Option Nat
  fileExists : String → Bool
  isDir : String → Bool
  platformSystem : String
  sysExecutable : String
  homeDir : String
  checkOutput : Cmd → Option (List Char)

/-- Result of running a piece of a script: the external commands it ran, each
tagged with its check flag, and some c when it terminated the process (by
sys.exit or by an uncaught CalledProcessError caught only by the main guard,
which exits with the propagated code). -/
structure Outcome where
  trace : List (Cmd × Bool)
  exit : Option Nat
deriving DecidableEq

/-- Model of subprocess.run via the run helpers of both scripts: the command
is recorded, and with check=True a non-zero exit code raises
CalledProcessError, which the main guards turn into that exit code. -/
def runCmd (w : Sys) (cmd : Cmd) (check : Bool) : Outcome :=
  ⟨[(cmd, check)], if check ∧ w.exitCode cmd ≠ 0 then some (w.exitCode cmd) else none⟩

/-- Sequencing: when the first piece terminated the process, the second
never runs; otherwise traces accumulate and the second decides termination. -/
def Outcome.seq (o₁ o₂ : Outcome) : Outcome :=
  match o₁.exit with
  | some _ => o₁
  | none => ⟨o₁.trace ++ o₂.trace, o₂.exit⟩

/-- A step that runs no external command and does not terminate. -/
def Outcome.skip : Outcome := ⟨[], none⟩

/-- Model of sys.exit c. -/
def Outcome.exitWith (c : Nat) : Outcome := ⟨[], some c⟩

/-- The process exit status: 0 on normal completion, per the main guards. -/
def Outcome.exitStatus (o : Outcome) : Nat := o.exit.getD 0

namespace InstallAikbt

/-- Model of have_cmd from install_aikbt.py: shutil.which is not None. -/
def have_cmd (w : Sys) (c : String) : Bool := w.pathHas c

/-- Model of is_root from install_aikbt.py: os.geteuid() == 0. This script
targets Ubuntu, where os.geteuid always exists. -/
def is_root (w : Sys) : Bool := w.euid == 0

/-- Model of apt_install from install_aikbt.py (lines 51-61). -/
def apt_install (w : Sys) (packages : List String) : Outcome :=
  if is_root w then
    (runCmd w ["apt", "update"] true).seq
      (runCmd w (["apt", "install", "-y"] ++ packages) true)
  else
    if ¬ have_cmd w "sudo" then Outcome.exitWith 1
    else
      (runCmd w ["sudo", "apt", "update"] true).seq
        (runCmd w (["sudo", "apt", "install", "-y"] ++ packages) true)

def AIK_BT_URL : String :=
  "https://raw.githubusercontent.com/aikaryashala/practice/refs/heads/main/lldb/aik_bt.py"

def AIK_RENDERER_URL : String :=
  "https://raw.githubusercontent.com/aikaryashala/practice/refs/heads/main/lldb/aik_renderer.py"

/-- The curl invocation of download_to. -/
def curlCmd (url dest : String) : Cmd := ["curl", "-fsSL", url, "-o", dest]

/-- Model of download_to from install_aikbt.py (lines 35-46): exits 1 when
curl is absent, runs curl with check=True, then exits 1 when the destination
does not exist or is smaller than 10 bytes. -/
def download_to (w : Sys) (url dest : String) : Outcome :=
  if ¬ have_cmd w "curl" then Outcome.exitWith 1
  else
    (runCmd w (curlCmd url dest) true).seq
      (match w.sizeAfter dest with
       | none => Outcome.exitWith 1
       | some n => if n < 10 then Outcome.exitWith 1 else Outcome.skip)

/-- The update-alternatives invocation of setup_update_alternatives. -/
def uaCmd : Cmd :=
  ["update-alternatives", "--install", "/usr/bin/lldb", "lldb", "/usr/bin/lldb-15", "100"]

/-- Model of setup_update_alternatives from install_aikbt.py (lines 63-79):
skips when update-alternatives or /usr/bin/lldb-15 is missing, otherwise
runs the command with check=False, behind sudo when not root. -/
def setup_update_alternatives (w : Sys) : Outcome :=
  if ¬ have_cmd w "update-alternatives" then Outcome.skip
  else if ¬ w.fileExists "/usr/bin/lldb-15" then Outcome.skip
  else if is_root w then runCmd w uaCmd false
  else runCmd w ("sudo" :: uaCmd) false

/-- Model of main from install_aikbt.py (lines 81-122) as seen by the
operating system. Steps 3 and 5 (ensure_line_in_file on ~/.lldbinit and
~/.bashrc, modelled separately above) run no external command and cannot
terminate the process, so they contribute Outcome.skip here. -/
def main (w : Sys) : Outcome :=
  ((((apt_install w ["lldb-15", "python3-lldb-15", "curl"]).seq
      (download_to w AIK_BT_URL (w.homeDir ++ "/.lldb/aik_bt.py"))).seq
        (download_to w AIK_RENDERER_URL (w.homeDir ++ "/.lldb/aik_renderer.py"))).seq
          Outcome.skip).seq
    ((setup_update_alternatives w).seq Outcome.skip)

end InstallAikbt

namespace SetupTools

def PIP_PACKAGES : List String := ["qrcode[pil]", "check50", "style50", "submit50"]

def APT_PACKAGES : List String :=
  ["sudo", "python3", "python3-venv", "python3-pip", "clang", "lldb", "micro",
   "asciinema", "zip", "unzip", "curl"]

def BREW_PACKAGES : List String := ["micro", "asciinema", "llvm", "zip", "unzip", "curl"]

def WINGET_PACKAGES : List (String × Option String) :=
  [("Micro Editor", some "zyedidia.micro"),
   ("LLVM (clang/lldb)", some "LLVM.LLVM"),
   ("cURL", some "cURL.cURL"),
   ("zip/unzip", none)]

/-- Model of is_root from setup_tools.py: hasattr(os, geteuid) and euid 0. -/
def is_root (w : Sys) : Bool := w.hasGeteuid && (w.euid == 0)

/-- Model of platform.system().lower() == name. -/
def platformIs (w : Sys) (name : String) : Bool :=
  (w.platformSystem.data.map asciiLower) == name.data

def is_linux (w : Sys) : Bool := platformIs w "linux"

def is_macos (w : Sys) : Bool := platformIs w "darwin"

def is_windows (w : Sys) : Bool := platformIs w "windows"

/-- Model of have from setup_tools.py (the name have is a Lean keyword):
shutil.which is not None. -/
def haveExe (w : Sys) (c : String) : Bool := w.pathHas c

/-- Model of first_line from setup_tools.py (lines 84-91). The result none
models an uncaught exception: cmd[0] on an empty list raises IndexError
outside the try block. Otherwise the checkOutput oracle gives the stripped
source of the output (none models any exception inside the try block, which
is caught), and the first line of the stripped output is returned, or
a fixed string when the executable is missing or the output is empty. -/
def first_line (w : Sys) (cmd : Cmd) : Option String :=
  match cmd with
  | [] => none
  | c0 :: _ =>
      some
        (if ¬ haveExe w c0 then "not available"
         else
           match w.checkOutput cmd with
           | none => "unknown"
           | some out =>
               let s := pyStrip out
               if s = [] then "unknown"
               else String.mk ((pySplitlines s).headD []))

/-- Model of ensure_admin_linux from setup_tools.py (lines 94-108): the pair
of the control effect and the prefix for privileged commands. The prefix
component is only meaningful when the effect does not terminate. -/
def ensure_admin_linux (w : Sys) : Outcome × List String :=
  if is_root w then (Outcome.skip, [])
  else if haveExe w "sudo" then (Outcome.skip, ["sudo"])
  else (Outcome.exitWith 1, [])

/-- Model of install_on_ubuntu from setup_tools.py (lines 114-124). -/
def install_on_ubuntu (w : Sys) : Outcome :=
  (ensure_admin_linux w).1.seq
    ((runCmd w ((ensure_admin_linux w).2 ++ ["apt-get", "update", "-y"]) true).seq
      (runCmd w ((ensure_admin_linux w).2 ++ ["apt-get", "install", "-y"] ++ APT_PACKAGES) true))

/-- Model of install_on_macos from setup_tools.py (lines 127-137): when brew
is missing it prints instructions and returns normally; otherwise it runs
brew update and brew install with check=True. -/
def install_on_macos (w : Sys) : Outcome :=
  if ¬ haveExe w "brew" then Outcome.skip
  else (runCmd w ["brew", "update"] true).seq
    (runCmd w (["brew", "install"] ++ BREW_PACKAGES) true)

/-- The winget invocation for one package id. -/
def wingetCmd (pid : String) : Cmd :=
  ["winget", "install", "--id", pid, "-e", "--accept-package-agreements",
   "--accept-source-agreements"]

/-- Model of install_on_windows from setup_tools.py (lines 140-154): when
winget is missing it prints a note and returns normally; otherwise it runs
one winget install per listed package id, each with check=False. -/
def install_on_windows (w : Sys) : Outcome :=
  if ¬ haveExe w "winget" then Outcome.skip
  else
    WINGET_PACKAGES.foldl
      (fun o p =>
        match p.2 with
        | none => o
        | some pid => o.seq (runCmd w (wingetCmd pid) false))
      Outcome.skip

/-- Model of os.path.join with two components. -/
def pathJoin (w : Sys) (a b : String) : String :=
  a ++ (if is_windows w then "\\" else "/") ++ b

/-- Model of choose_venv_path from setup_tools.py (lines 50-53). -/
def choose_venv_path (w : Sys) : String :=
  if is_linux w && is_root w then "/opt/course-venv"
  else pathJoin w w.homeDir "course-venv"

/-- Model of ensure_venv from setup_tools.py (lines 160-175): creates the
venv when the directory is missing, computes the interpreter and pip paths
inside it, upgrades pip with check=True, and returns the two paths. The
returned paths are what the function returns when it completes. -/
def ensure_venv (w : Sys) (venv_path : String) : Outcome × String × String :=
  let create : Outcome :=
    if ¬ w.isDir venv_path then runCmd w [w.sysExecutable, "-m", "venv", venv_path] true
    else Outcome.skip
  let python_bin : String :=
    if is_windows w then pathJoin w (pathJoin w venv_path "Scripts") "python.exe"
    else pathJoin w (pathJoin w venv_path "bin") "python"
  let pip_bin : String :=
    if is_windows w then pathJoin w (pathJoin w venv_path "Scripts") "pip.exe"
    else pathJoin w (pathJoin w venv_path "bin") "pip"
  (create.seq
      (runCmd w [python_bin, "-m", "pip", "install", "-U", "pip", "setuptools", "wheel"] true),
    python_bin, pip_bin)

/-- Model of pip_install_in_venv from setup_tools.py (lines 178-179). -/
def pip_install_in_venv (w : Sys) (pip_bin : String) : Outcome :=
  runCmd w ([pip_bin, "install", "-U"] ++ PIP_PACKAGES) true

/-- Model of symlink_cli_tools_linux_shared from setup_tools.py
(lines 182-203): only acts on Linux with the shared venv path; links each
tool present in the venv into /usr/local/bin behind the admin prefix. -/
def symlink_cli_tools_linux_shared (w : Sys) (venv_path : String) : Outcome :=
  if ¬ is_linux w then Outcome.skip
  else if venv_path ≠ "/opt/course-venv" then Outcome.skip
  else
    (ensure_admin_linux w).1.seq
      (["check50", "style50", "submit50"].foldl
        (fun acc tool =>
          if w.fileExists (pathJoin w (pathJoin w venv_path "bin") tool) then
            acc.seq
              (runCmd w
                ((ensure_admin_linux w).2 ++
                  ["ln", "-sf", pathJoin w (pathJoin w venv_path "bin") tool,
                    pathJoin w "/usr/local/bin" tool]) true)
          else acc)
        Outcome.skip)

/-- Model of main from setup_tools.py (lines 253-277) as seen by the
operating system. print_versions only calls first_line and check_output
inside try blocks, runs nothing through the run helper and cannot terminate
the process, so it contributes Outcome.skip. On an unsupported platform main
prints a message and returns before the venv steps. -/
def main (w : Sys) : Outcome :=
  let step1 : Option Outcome :=
    if is_linux w then some (install_on_ubuntu w)
    else if is_macos w then some (install_on_macos w)
    else if is_windows w then some (install_on_windows w)
    else none
  match step1 with
  | none => Outcome.skip
  | some o1 =>
      (((o1.seq (ensure_venv w (choose_venv_path w)).1).seq
          (pip_install_in_venv w (ensure_venv w (choose_venv_path w)).2.2)).seq
        (symlink_cli_tools_linux_shared w (choose_venv_path w))).seq
        Outcome.skip

end SetupTools

/-- Every checked command in a trace exited 0. -/
def checkedOk (w : Sys) (tr : List (Cmd × Bool)) : Prop :=
  ∀ c : Cmd, (c, true) ∈ tr → w.exitCode c = 0

/-- The exit-code discipline of both scripts: on normal completion every
checked command succeeded; on termination the code is 1 (a missing
precondition) or the exit code of the last, checked, command of the trace,
every checked command before it having succeeded. -/
def GoodOutcome (w : Sys) (o : Outcome) : Prop :=
  (o.exit = none → checkedOk w o.trace) ∧
  (∀ n, o.exit = some n →
    n = 1 ∨ ∃ c pre, o.trace = pre ++ [(c, true)] ∧ w.exitCode c = n ∧ checkedOk w pre)

/- Concrete environments used by witnesses and counterexamples. -/

/-- A root Linux environment where every tool exists and every command
succeeds. -/
def sysLinuxRoot : Sys where
  euid := 0
  hasGeteuid := true
  pathHas := fun _ => true
  exitCode := fun _ => 0
  sizeAfter := fun _ => some 4096
  fileExists := fun _ => true
  isDir := fun _ => false
  platformSystem := "Linux"
  sysExecutable := "/usr/bin/python3"
  homeDir := "/root"
  checkOutput := fun _ => some "lldb version 15.0.7\n".data

/-- The same environment but not root, with sudo available. -/
def sysLinuxUser : Sys := { sysLinuxRoot with euid := 1000, homeDir := "/home/u" }

/-- A non-root environment without sudo. -/
def sysLinuxUserNoSudo : Sys :=
  { sysLinuxRoot with
    euid := 1000
    homeDir := "/home/u"
    pathHas := fun c => c != "sudo" }

/-- A macOS environment without Homebrew. -/
def sysMacNoBrew : Sys :=
  { sysLinuxRoot with
    euid := 501
    platformSystem := "Darwin"
    homeDir := "/Users/u"
    pathHas := fun c => c != "brew" }

/-- A root Linux environment where only update-alternatives fails, with
exit code 7. -/
def sysUaFails : Sys :=
  { sysLinuxRoot with
    exitCode := fun c => if c = InstallAikbt.uaCmd then 7 else 0 }

/-- A root Linux environment where the first download comes out too small. -/
def sysSmallDownload : Sys := { sysLinuxRoot with sizeAfter := fun _ => some 3 }

/-- A root Linux environment where downloaded files do not appear at all. -/
def sysAbsentDownload : Sys := { sysLinuxRoot with sizeAfter := fun _ => none }

/-- An environment whose commands print only whitespace. -/
def sysBlankOutput : Sys :=
  { sysLinuxRoot with checkOutput := fun _ => some [' ', '\n'] }

/-- A root Linux environment without curl. -/
def sysNoCurl : Sys := { sysLinuxRoot with pathHas := fun c => c != "curl" }

/-- A Windows environment without winget. -/
def sysWinNoWinget : Sys :=
  { sysLinuxRoot with
    platformSystem := "Windows"
    hasGeteuid := false
    homeDir := "C:\\Users\\u"
    pathHas := fun c => c != "winget" }

/- ===================== Part 2: theorems ===================== -/

-- Sanity checks of the splitlines model against Python behaviour.
example : pySplitlines "ab\ncd".data = ["ab".data, "cd".data] := by decide
example : pySplitlines "ab\r\ncd\n".data = ["ab".data, "cd".data] := by decide
example : pySplitlines "".data = [] := by decide
example : pySplitlines "\n".data = [[]] := by decide
example : pySplitlines "a\r\rb".data = ["a".data, [], "b".data] := by decide
example : pySplitlines "x\x0b\n".data = ["x".data, []] := by decide
example : pySplitlines "a b\n".data = ["a b".data] := by decide
example : pySplitlines "a\u2028b\n".data = ["a".data, "b".data] := by decide
example : pyIsLineBreak ' ' = false := by decide
example : pyStrip "  a b \n".data = "a b".data := by decide
example : pyStrip "\u2009 a\u00a0".data = "a".data := by decide

/-- A nonempty string has at least one line. -/
theorem pySplitlinesAux_ne_nil :
    ∀ (s acc : List Char), (s = [] → acc ≠ []) →
      pySplitlinesAux s acc false ≠ [] := by
  intro s
  induction s with
  | nil =>
      intro acc h
      have hacc : acc ≠ [] := h rfl
      simp [pySplitlinesAux, List.isEmpty_iff, hacc]
  | cons c rest ih =>
      intro acc _
      simp only [pySplitlinesAux]
      rw [if_neg (by simp)]
      by_cases h2 : c = '\r'
      · rw [if_pos h2]
        simp
      · rw [if_neg h2]
        by_cases h3 : pyIsLineBreak c = true
        · rw [if_pos h3]
          simp
        · rw [if_neg h3]
          exact ih (c :: acc) (by simp)

theorem pySplitlines_ne_nil (s : List Char) (h : s ≠ []) : pySplitlines s ≠ [] :=
  pySplitlinesAux_ne_nil s [] (fun hs => absurd hs h)

/-- A string is empty iff it has no lines. -/
theorem pySplitlines_eq_nil_iff (s : List Char) : pySplitlines s = [] ↔ s = [] := by
  constructor
  · intro h
    by_contra hs
    exact pySplitlines_ne_nil s hs h
  · intro h
    subst h
    rfl

/-- Splitting a break-free string terminated by a linefeed yields one line. -/
theorem pySplitlinesAux_noBreak_lf (l : List Char)
    (hl : ∀ c ∈ l, pyIsLineBreak c = false) :
    ∀ acc, pySplitlinesAux (l ++ ['\n']) acc false = [acc.reverse ++ l] := by
  induction l with
  | nil =>
      intro acc
      simp [pySplitlinesAux, pyIsLineBreak]
  | cons c rest ih =>
      intro acc
      have hc : pyIsLineBreak c = false := hl c (by simp)
      have hcr : c ≠ '\r' := by
        intro h
        subst h
        simp [pyIsLineBreak] at hc
      have hrest : ∀ x ∈ rest, pyIsLineBreak x = false :=
        fun x hx => hl x (by simp [hx])
      simp only [List.cons_append, pySplitlinesAux, List.append_eq]
      rw [if_neg (by simp), if_neg hcr, if_neg (by simp [hc]), ih hrest (c :: acc)]
      simp

theorem pySplitlines_single (l : List Char)
    (hl : ∀ c ∈ l, pyIsLineBreak c = false) :
    pySplitlines (l ++ ['\n']) = [l] := by
  rw [pySplitlines, pySplitlinesAux_noBreak_lf l hl []]
  simp

/-- Splitting distributes over a linefeed that separates two parts. -/
theorem pySplitlinesAux_append_lf_cons (b : List Char) :
    ∀ (a acc : List Char) (m : Bool),
      pySplitlinesAux (a ++ '\n' :: b) acc m =
        pySplitlinesAux (a ++ ['\n']) acc m ++ pySplitlinesAux b [] false := by
  intro a
  induction a with
  | nil =>
      intro acc m
      cases m with
      | false => simp [pySplitlinesAux, pyIsLineBreak]
      | true => simp [pySplitlinesAux]
  | cons c rest ih =>
      intro acc m
      simp only [List.cons_append, pySplitlinesAux, List.append_eq]
      by_cases h1 : (m : Prop) ∧ c = '\n'
      · rw [if_pos h1, if_pos h1, ih [] false]
      · rw [if_neg h1, if_neg h1]
        by_cases h2 : c = '\r'
        · rw [if_pos h2, if_pos h2, ih [] true]
          simp
        · rw [if_neg h2, if_neg h2]
          by_cases h3 : pyIsLineBreak c = true
          · rw [if_pos h3, if_pos h3, ih [] false]
            simp
          · rw [if_neg h3, if_neg h3, ih (c :: acc) false]

/-- Appending a linefeed to a string either leaves its lines unchanged
(the string already ended in a line break) or adds one empty line. -/
theorem pySplitlinesAux_append_lf (s : List Char) :
    ∀ (acc : List Char) (m : Bool), (m = true → acc = []) →
      pySplitlinesAux (s ++ ['\n']) acc m = pySplitlinesAux s acc m ∨
      pySplitlinesAux (s ++ ['\n']) acc m = pySplitlinesAux s acc m ++ [[]] := by
  induction s with
  | nil =>
      intro acc m hm
      cases m with
      | true =>
          rw [hm rfl]
          simp [pySplitlinesAux]
      | false =>
          by_cases hacc : acc = []
          · subst hacc
            right
            simp [pySplitlinesAux, pyIsLineBreak]
          · left
            simp [pySplitlinesAux, pyIsLineBreak, List.isEmpty_iff, hacc]
  | cons c rest ih =>
      intro acc m hm
      simp only [List.cons_append, pySplitlinesAux, List.append_eq]
      by_cases h1 : (m : Prop) ∧ c = '\n'
      · rw [if_pos h1, if_pos h1]
        exact ih [] false (by simp)
      · rw [if_neg h1, if_neg h1]
        by_cases h2 : c = '\r'
        · rw [if_pos h2, if_pos h2]
          rcases ih [] true (fun _ => rfl) with h | h
          · left
            rw [h]
          · right
            rw [h]
            simp
        · rw [if_neg h2, if_neg h2]
          by_cases h3 : pyIsLineBreak c = true
          · rw [if_pos h3, if_pos h3]
            rcases ih [] false (by simp) with h | h
            · left
              rw [h]
            · right
              rw [h]
              simp
          · rw [if_neg h3, if_neg h3]
            exact ih (c :: acc) false (by simp)

/-- A string ending in a linefeed decomposes as a part plus that linefeed. -/
theorem endsWithLF_decomp (s : List Char) (h : pyEndsWithLF s = true) :
    ∃ a, s = a ++ ['\n'] := by
  have hlast : s.getLast? = some '\n' := by
    simpa [pyEndsWithLF] using h
  rcases List.eq_nil_or_concat s with rfl | ⟨a, c, rfl⟩
  · simp at hlast
  · refine ⟨a, ?_⟩
    rw [List.concat_eq_append] at hlast ⊢
    rw [List.getLast?_concat] at hlast
    simp only [Option.some.injEq] at hlast
    rw [hlast]

namespace InstallAikbt

-- Behaviour on concrete inputs, matching a run of the Python function.
example :
    ensure_line_in_file ⟨some "a".data, true⟩ "b".data
      = ⟨some "a\nb\n".data, true⟩ := by decide
example :
    ensure_line_in_file ⟨some "a\n".data, true⟩ "a".data
      = ⟨some "a\n".data, true⟩ := by decide
example :
    ensure_line_in_file ⟨none, false⟩ "a".data = ⟨some "a\n".data, true⟩ := by decide
example :
    ensure_line_in_file ⟨some "a b\n".data, true⟩ "a b".data
      = ⟨some "a b\n".data, true⟩ := by decide
example :
    ensure_line_in_file (ensure_line_in_file ⟨none, false⟩ "a b".data) "a b".data
      = ⟨some "a b\n".data, true⟩ := by decide

/-- When the line is already present the function changes nothing but the
parent directory. -/
theorem ensure_line_noop (st : FileState) (l : List Char)
    (h : l ∈ pySplitlines st.contentD) :
    ensure_line_in_file st l = ⟨st.content, true⟩ := by
  rcases hc : st.content with _ | c
  · rw [FileState.contentD, hc] at h
    simp [pySplitlines, pySplitlinesAux] at h
  · rw [FileState.contentD, hc] at h
    simp only [Option.getD] at h
    rw [ensure_line_in_file, hc]
    simp [h]

/-- When the line is absent the function appends the separator and the
terminated line. -/
theorem ensure_line_append (st : FileState) (l : List Char)
    (h : l ∉ pySplitlines st.contentD) :
    ensure_line_in_file st l =
      ⟨some (st.contentD ++
        ((if pySplitlines st.contentD ≠ [] ∧ pyEndsWithLF st.contentD = false
          then ['\n'] else []) ++ (l ++ ['\n']))), true⟩ := by
  rcases hc : st.content with _ | c
  · rw [ensure_line_in_file, hc]
    simp [FileState.contentD, hc, pySplitlines, pySplitlinesAux]
  · have hd : st.contentD = c := by rw [FileState.contentD, hc]; rfl
    rw [hd] at h ⊢
    rw [ensure_line_in_file, hc]
    simp only [if_neg h, FileState.mk.injEq, and_true, Option.some.injEq]
    rw [List.append_assoc]

/-- The lines after an appending run are the old lines, possibly followed by
one empty line when the old content ended in a break other than a linefeed,
followed by the inserted line. -/
theorem ensure_line_lines (st : FileState) (l : List Char)
    (hl : ∀ c ∈ l, pyIsLineBreak c = false)
    (h : l ∉ pySplitlines st.contentD) :
    ∃ X, pySplitlines (ensure_line_in_file st l).contentD = X ++ [l] ∧
      (X = pySplitlines st.contentD ∨ X = pySplitlines st.contentD ++ [[]]) := by
  rw [ensure_line_append st l h]
  by_cases h0 : pySplitlines st.contentD = []
  · have hc0 : st.contentD = [] := (pySplitlines_eq_nil_iff _).1 h0
    refine ⟨[], ?_, Or.inl h0.symm⟩
    rw [FileState.contentD]
    simp only [Option.getD]
    rw [if_neg (fun hp => hp.1 h0), hc0]
    simpa using pySplitlines_single l hl
  · by_cases hLF : pyEndsWithLF st.contentD = true
    · obtain ⟨a, ha⟩ := endsWithLF_decomp _ hLF
      refine ⟨pySplitlines st.contentD, ?_, Or.inl rfl⟩
      rw [FileState.contentD]
      simp only [Option.getD]
      rw [if_neg (by simp [hLF]), ha]
      have : a ++ ['\n'] ++ ([] ++ (l ++ ['\n'])) = a ++ '\n' :: (l ++ ['\n']) := by
        simp
      rw [this, pySplitlines, pySplitlinesAux_append_lf_cons (l ++ ['\n']) a [] false,
        pySplitlinesAux_noBreak_lf l hl []]
      simp [pySplitlines]
    · have hLF' : pyEndsWithLF st.contentD = false := by
        revert hLF
        cases pyEndsWithLF st.contentD <;> simp
      rw [FileState.contentD]
      simp only [Option.getD]
      rw [if_pos ⟨h0, hLF'⟩]
      have hsh : st.contentD ++ (['\n'] ++ (l ++ ['\n'])) =
          st.contentD ++ '\n' :: (l ++ ['\n']) := by simp
      rw [hsh, pySplitlines, pySplitlinesAux_append_lf_cons (l ++ ['\n']) st.contentD [] false,
        pySplitlinesAux_noBreak_lf l hl []]
      rcases pySplitlinesAux_append_lf st.contentD [] false (by simp) with hB | hB
      · exact ⟨pySplitlines st.contentD, by rw [hB]; simp [pySplitlines], Or.inl rfl⟩
      · refine ⟨pySplitlines st.contentD ++ [[]], ?_, Or.inr rfl⟩
        rw [hB]
        simp [pySplitlines]

/-- After one run of ensure_line_in_file a break-free line is present. -/
theorem ensure_line_mem (st : FileState) (l : List Char)
    (hl : ∀ c ∈ l, pyIsLineBreak c = false) :
    l ∈ pySplitlines (ensure_line_in_file st l).contentD := by
  by_cases h : l ∈ pySplitlines st.contentD
  · rw [ensure_line_noop st l h]
    rcases hc : st.content with _ | c
    · rw [FileState.contentD, hc] at h
      simp [pySplitlines, pySplitlinesAux] at h
    · rw [FileState.contentD, hc] at h
      simpa [FileState.contentD] using h
  · obtain ⟨X, hX, _⟩ := ensure_line_lines st l hl h
    rw [hX]
    simp

/-- The first run establishes presence, so the second run changes nothing. -/
theorem ensure_line_idem (st : FileState) (l : List Char)
    (hl : ∀ c ∈ l, pyIsLineBreak c = false) :
    ensure_line_in_file (ensure_line_in_file st l) l = ensure_line_in_file st l := by
  have hmem := ensure_line_mem st l hl
  rw [ensure_line_noop _ l hmem]
  by_cases h : l ∈ pySplitlines st.contentD
  · rw [ensure_line_noop st l h]
  · rw [ensure_line_append st l h]

end InstallAikbt

namespace InstallAikbt

/-- Reading the content of a present file. -/
theorem contentD_mk (x : List Char) (b : Bool) :
    FileState.contentD ⟨some x, b⟩ = x := rfl

/-- Changing only the parent flag keeps the content. -/
theorem contentD_keep (st : FileState) (b : Bool) :
    FileState.contentD ⟨st.content, b⟩ = st.contentD := rfl

end InstallAikbt

/-- Claim C1, counterexample to the claim as stated: a line already present
twice before the runs still occurs twice afterwards, not once; a line that
itself contains a linefeed is appended again by the second run, so the file
changes; and the empty line, inserted into content that ends in a vertical
tab, occurs twice after the runs. -/
theorem C1_exact_once_counterexample :
    ((pySplitlines (InstallAikbt.ensure_line_in_file
        (InstallAikbt.ensure_line_in_file ⟨some ['x', '\n', 'x', '\n'], true⟩ ['x'])
        ['x']).contentD).count ['x'] = 2) ∧
    (InstallAikbt.ensure_line_in_file
        (InstallAikbt.ensure_line_in_file ⟨none, false⟩ ['a', '\n', 'b']) ['a', '\n', 'b'] ≠
      InstallAikbt.ensure_line_in_file ⟨none, false⟩ ['a', '\n', 'b']) ∧
    ((pySplitlines (InstallAikbt.ensure_line_in_file
        (InstallAikbt.ensure_line_in_file ⟨some ['a', '\x0b'], true⟩ []) []).contentD).count
      [] = 2) := by
  decide

/-- Claim C1 (amended): for every file state and every line free of line
break characters, the second of two runs of ensure_line_in_file is a
byte-for-byte no-op, the pre-existing content stays an initial segment of
the result, the line occurs exactly once afterwards provided it is nonempty
and occurred at most once before, and from an empty or absent file the
resulting file consists of exactly that one line. -/
theorem C1_line_insertion_idempotent (st : InstallAikbt.FileState) (l : List Char)
    (hl : ∀ c ∈ l, pyIsLineBreak c = false) :
    InstallAikbt.ensure_line_in_file (InstallAikbt.ensure_line_in_file st l) l =
        InstallAikbt.ensure_line_in_file st l ∧
    (∃ added, (InstallAikbt.ensure_line_in_file st l).content = some (st.contentD ++ added)) ∧
    (l ≠ [] → (pySplitlines st.contentD).count l ≤ 1 →
      (pySplitlines (InstallAikbt.ensure_line_in_file
        (InstallAikbt.ensure_line_in_file st l) l).contentD).count l = 1) ∧
    (st.contentD = [] →
      pySplitlines (InstallAikbt.ensure_line_in_file
        (InstallAikbt.ensure_line_in_file st l) l).contentD = [l]) := by
  refine ⟨InstallAikbt.ensure_line_idem st l hl, ?_, ?_, ?_⟩
  · by_cases h : l ∈ pySplitlines st.contentD
    · rw [InstallAikbt.ensure_line_noop st l h]
      rcases hc : st.content with _ | c
      · rw [InstallAikbt.FileState.contentD, hc] at h
        simp [pySplitlines, pySplitlinesAux] at h
      · exact ⟨[], by simp [InstallAikbt.FileState.contentD, hc]⟩
    · rw [InstallAikbt.ensure_line_append st l h]
      exact ⟨_, rfl⟩
  · intro hne hcount
    rw [InstallAikbt.ensure_line_idem st l hl]
    by_cases h : l ∈ pySplitlines st.contentD
    · rw [InstallAikbt.ensure_line_noop st l h, InstallAikbt.contentD_keep]
      have h1 : 1 ≤ (pySplitlines st.contentD).count l := List.one_le_count_iff.mpr h
      omega
    · obtain ⟨X, hX, hXor⟩ := InstallAikbt.ensure_line_lines st l hl h
      rw [hX, List.count_append]
      have hX0 : X.count l = 0 := by
        rcases hXor with rfl | rfl
        · exact List.count_eq_zero.2 h
        · rw [List.count_append, List.count_eq_zero.2 h]
          simpa [List.count_singleton] using hne
      rw [hX0]
      simp [List.count_singleton]
  · intro hc0
    have h : l ∉ pySplitlines st.contentD := by
      rw [hc0]
      intro hm
      simp [pySplitlines, pySplitlinesAux] at hm
    have h0 : pySplitlines st.contentD = [] := by
      rw [hc0]
      rfl
    rw [InstallAikbt.ensure_line_idem st l hl, InstallAikbt.ensure_line_append st l h,
      InstallAikbt.contentD_mk, if_neg (fun hp => hp.1 h0), hc0]
    simpa using pySplitlines_single l hl

/-- Claim C1, witness: the amended theorem applied to an absent file and
the space-containing import line of the end-to-end scenario of the spec. -/
theorem C1_line_insertion_idempotent_witness :
    (∀ c ∈ "command script import /home/u/.lldb/aik_bt.py".data, pyIsLineBreak c = false) ∧
    (InstallAikbt.ensure_line_in_file
        (InstallAikbt.ensure_line_in_file ⟨none, false⟩ "command script import /home/u/.lldb/aik_bt.py".data) "command script import /home/u/.lldb/aik_bt.py".data =
          InstallAikbt.ensure_line_in_file ⟨none, false⟩ "command script import /home/u/.lldb/aik_bt.py".data ∧
      (∃ added, (InstallAikbt.ensure_line_in_file ⟨none, false⟩ "command script import /home/u/.lldb/aik_bt.py".data).content =
        some (InstallAikbt.FileState.contentD ⟨none, false⟩ ++ added)) ∧
      ("command script import /home/u/.lldb/aik_bt.py".data ≠ [] →
        (pySplitlines (InstallAikbt.FileState.contentD ⟨none, false⟩)).count "command script import /home/u/.lldb/aik_bt.py".data ≤ 1 →
        (pySplitlines (InstallAikbt.ensure_line_in_file
          (InstallAikbt.ensure_line_in_file ⟨none, false⟩ "command script import /home/u/.lldb/aik_bt.py".data) "command script import /home/u/.lldb/aik_bt.py".data).contentD).count
            "command script import /home/u/.lldb/aik_bt.py".data = 1) ∧
      (InstallAikbt.FileState.contentD ⟨none, false⟩ = [] →
        pySplitlines (InstallAikbt.ensure_line_in_file
          (InstallAikbt.ensure_line_in_file ⟨none, false⟩ "command script import /home/u/.lldb/aik_bt.py".data) "command script import /home/u/.lldb/aik_bt.py".data).contentD =
        ["command script import /home/u/.lldb/aik_bt.py".data])) :=
  ⟨by decide, C1_line_insertion_idempotent ⟨none, false⟩ "command script import /home/u/.lldb/aik_bt.py".data (by decide)⟩

/-- Claim C2, counterexample to the claim as stated: when the line is already
present in a file that does not end in a newline, the call leaves the file
unchanged, so after the call the file still does not end in a newline. -/
theorem C2_trailing_newline_counterexample :
    InstallAikbt.ensure_line_in_file ⟨some ['f', 'o', 'o'], true⟩ ['f', 'o', 'o'] =
        ⟨some ['f', 'o', 'o'], true⟩ ∧
      pyEndsWithLF ['f', 'o', 'o'] = false := by
  decide

/-- Claim C2 (amended): a call that actually inserts the line leaves the file
ending in a linefeed, and when the pre-existing content is nonempty and does
not end in a linefeed the separator linefeed is written before the line, so
the line is never concatenated onto the pre-existing final line; a call that
finds the line already present leaves the file unchanged, so such a file may
keep a missing trailing newline. -/
theorem C2_trailing_newline (st : InstallAikbt.FileState) (l : List Char) :
    (l ∈ pySplitlines st.contentD →
      InstallAikbt.ensure_line_in_file st l = ⟨st.content, true⟩) ∧
    (l ∉ pySplitlines st.contentD →
      pyEndsWithLF (InstallAikbt.ensure_line_in_file st l).contentD = true) ∧
    (l ∉ pySplitlines st.contentD → st.contentD ≠ [] → pyEndsWithLF st.contentD = false →
      (InstallAikbt.ensure_line_in_file st l).content =
        some (st.contentD ++ '\n' :: (l ++ ['\n']))) := by
  refine ⟨fun h => InstallAikbt.ensure_line_noop st l h, fun h => ?_, fun h hne hLF => ?_⟩
  · rw [InstallAikbt.ensure_line_append st l h, InstallAikbt.contentD_mk]
    rw [pyEndsWithLF]
    have hshape : st.contentD ++
        ((if pySplitlines st.contentD ≠ [] ∧ pyEndsWithLF st.contentD = false
          then ['\n'] else []) ++ (l ++ ['\n'])) =
        (st.contentD ++
          (if pySplitlines st.contentD ≠ [] ∧ pyEndsWithLF st.contentD = false
           then ['\n'] else []) ++ l) ++ ['\n'] := by
      simp
    rw [hshape, List.getLast?_concat]
    rfl
  · rw [InstallAikbt.ensure_line_append st l h]
    have h0 : pySplitlines st.contentD ≠ [] := pySplitlines_ne_nil _ hne
    rw [if_pos ⟨h0, hLF⟩]
    simp

/-- Claim C2, witness: inserting the line b into a file holding the single
letter a with no trailing newline writes the separator first. -/
theorem C2_trailing_newline_witness :
    (['b'] ∉ pySplitlines (InstallAikbt.FileState.contentD ⟨some ['a'], true⟩)) ∧
    pyEndsWithLF (InstallAikbt.ensure_line_in_file ⟨some ['a'], true⟩ ['b']).contentD = true ∧
    (InstallAikbt.ensure_line_in_file ⟨some ['a'], true⟩ ['b']).content =
      some (InstallAikbt.FileState.contentD ⟨some ['a'], true⟩ ++ '\n' :: (['b'] ++ ['\n'])) :=
  ⟨by decide,
    (C2_trailing_newline ⟨some ['a'], true⟩ ['b']).2.1 (by decide),
    (C2_trailing_newline ⟨some ['a'], true⟩ ['b']).2.2 (by decide) (by decide) (by decide)⟩

/-- Claim C8: ensure_line_in_file only ever appends: the pre-existing content
is an initial segment of the resulting content, the file exists afterwards,
and the parent directory is created. -/
theorem C8_ensure_line_append_only (st : InstallAikbt.FileState) (l : List Char) :
    (InstallAikbt.ensure_line_in_file st l).parentExists = true ∧
    ∃ added, (InstallAikbt.ensure_line_in_file st l).content =
      some (st.contentD ++ added) := by
  by_cases h : l ∈ pySplitlines st.contentD
  · rw [InstallAikbt.ensure_line_noop st l h]
    refine ⟨rfl, ?_⟩
    rcases hc : st.content with _ | c
    · rw [InstallAikbt.FileState.contentD, hc] at h
      simp [pySplitlines, pySplitlinesAux] at h
    · exact ⟨[], by simp [InstallAikbt.FileState.contentD, hc]⟩
  · rw [InstallAikbt.ensure_line_append st l h]
    exact ⟨rfl, _, rfl⟩

/-- Sequencing after a normal completion concatenates the traces. -/
theorem Outcome.seq_none (o₁ o₂ : Outcome) (h : o₁.exit = none) :
    o₁.seq o₂ = ⟨o₁.trace ++ o₂.trace, o₂.exit⟩ := by
  rw [Outcome.seq, h]

/-- Sequencing after a termination never reaches the second piece. -/
theorem Outcome.seq_some (o₁ o₂ : Outcome) (c : Nat) (h : o₁.exit = some c) :
    o₁.seq o₂ = o₁ := by
  rw [Outcome.seq, h]

/-- A checked command that succeeds does not terminate. -/
theorem runCmd_ok (w : Sys) (cmd : Cmd) (ch : Bool) (h : w.exitCode cmd = 0) :
    runCmd w cmd ch = ⟨[(cmd, ch)], none⟩ := by
  simp [runCmd, h]

/-- An unchecked command never terminates. -/
theorem runCmd_unchecked (w : Sys) (cmd : Cmd) :
    runCmd w cmd false = ⟨[(cmd, false)], none⟩ := by
  simp [runCmd]

/-- A checked command that fails terminates with its exit code. -/
theorem runCmd_fail (w : Sys) (cmd : Cmd) (h : w.exitCode cmd ≠ 0) :
    runCmd w cmd true = ⟨[(cmd, true)], some (w.exitCode cmd)⟩ := by
  simp [runCmd, h]

/-- Claim C3: privilege-aware execution. As superuser, no escalation prefix
is used: ensure_admin_linux yields the empty prefix and every apt_install
command starts with apt. As an ordinary user with sudo on PATH, exactly one
sudo token is prepended: the prefix is the singleton sudo and every
apt_install command is sudo directly followed by apt. As an ordinary user
without sudo, both functions exit with code 1 before attempting any
command. -/
theorem C3_privilege_aware_execution (w : Sys) (pkgs : List String) :
    (SetupTools.is_root w = true → SetupTools.ensure_admin_linux w = (Outcome.skip, [])) ∧
    (SetupTools.is_root w = false → SetupTools.haveExe w "sudo" = true →
      SetupTools.ensure_admin_linux w = (Outcome.skip, ["sudo"])) ∧
    (SetupTools.is_root w = false → SetupTools.haveExe w "sudo" = false →
      SetupTools.ensure_admin_linux w = (Outcome.exitWith 1, [])) ∧
    (InstallAikbt.is_root w = true →
      ∀ c ∈ (InstallAikbt.apt_install w pkgs).trace, c.1.head? = some "apt") ∧
    (InstallAikbt.is_root w = false → InstallAikbt.have_cmd w "sudo" = true →
      ∀ c ∈ (InstallAikbt.apt_install w pkgs).trace,
        c.1.head? = some "sudo" ∧ c.1.tail.head? = some "apt") ∧
    (InstallAikbt.is_root w = false → InstallAikbt.have_cmd w "sudo" = false →
      InstallAikbt.apt_install w pkgs = Outcome.exitWith 1) := by
  refine ⟨?_, ?_, ?_, ?_, ?_, ?_⟩
  · intro h
    simp [SetupTools.ensure_admin_linux, h]
  · intro h hs
    simp [SetupTools.ensure_admin_linux, h, hs]
  · intro h hs
    simp [SetupTools.ensure_admin_linux, h, hs]
  · intro h
    rw [InstallAikbt.apt_install, if_pos (by rw [h])]
    by_cases hc : w.exitCode ["apt", "update"] = 0
    · rw [runCmd_ok w _ _ hc, Outcome.seq_none _ _ rfl]
      intro c hc'
      simp only [runCmd] at hc'
      simp at hc'
      rcases hc' with rfl | rfl <;> rfl
    · rw [runCmd_fail w _ hc, Outcome.seq_some _ _ _ rfl]
      intro c hc'
      simp at hc'
      rw [hc']
      rfl
  · intro h hs
    rw [InstallAikbt.apt_install, if_neg (by rw [h]; simp),
      if_neg (by rw [InstallAikbt.have_cmd] at hs ⊢; rw [hs]; simp)]
    by_cases hc : w.exitCode ["sudo", "apt", "update"] = 0
    · rw [runCmd_ok w _ _ hc, Outcome.seq_none _ _ rfl]
      intro c hc'
      simp only [runCmd] at hc'
      simp at hc'
      rcases hc' with rfl | rfl
      · exact ⟨rfl, rfl⟩
      · exact ⟨rfl, rfl⟩
    · rw [runCmd_fail w _ hc, Outcome.seq_some _ _ _ rfl]
      intro c hc'
      simp at hc'
      rw [hc']
      exact ⟨rfl, rfl⟩
  · intro h hs
    rw [InstallAikbt.apt_install, if_neg (by rw [h]; simp),
      if_pos (by rw [InstallAikbt.have_cmd] at hs ⊢; rw [hs]; simp)]

/-- Claim C3, witness: the three cases at concrete environments: root, a
user with sudo, and a user without sudo. -/
theorem C3_privilege_aware_execution_witness :
    SetupTools.ensure_admin_linux sysLinuxRoot = (Outcome.skip, []) ∧
    SetupTools.ensure_admin_linux sysLinuxUser = (Outcome.skip, ["sudo"]) ∧
    SetupTools.ensure_admin_linux sysLinuxUserNoSudo = (Outcome.exitWith 1, []) ∧
    InstallAikbt.apt_install sysLinuxUserNoSudo ["curl"] = Outcome.exitWith 1 :=
  ⟨(C3_privilege_aware_execution sysLinuxRoot ["curl"]).1 (by decide),
    (C3_privilege_aware_execution sysLinuxUser ["curl"]).2.1 (by decide) (by decide),
    (C3_privilege_aware_execution sysLinuxUserNoSudo ["curl"]).2.2.1 (by decide) (by decide),
    (C3_privilege_aware_execution sysLinuxUserNoSudo ["curl"]).2.2.2.2.2
      (by decide) (by decide)⟩

/-- Claim C4, counterexample to the claim as stated: on macOS without
Homebrew the process is not terminated; install_on_macos prints instructions
and returns, and the script continues with the venv creation, pip upgrade
and pip install steps, finishing with exit status 0. -/
theorem C4_missing_brew_counterexample :
    SetupTools.haveExe sysMacNoBrew "brew" = false ∧
    SetupTools.install_on_macos sysMacNoBrew = Outcome.skip ∧
    (SetupTools.main sysMacNoBrew).exit = none ∧
    (SetupTools.main sysMacNoBrew).exitStatus = 0 ∧
    (([sysMacNoBrew.sysExecutable, "-m", "venv",
        SetupTools.choose_venv_path sysMacNoBrew], true) ∈
      (SetupTools.main sysMacNoBrew).trace) := by
  decide

/-- Claim C4 (amended): a missing privilege-escalation helper for a non-root
user, a missing download tool, and an absent or implausibly small downloaded
file each terminate the process immediately with exit code 1, and
termination short-circuits everything sequenced after it; a missing platform
package manager (Homebrew, winget) does not terminate the process: the
script returns from the system-install step without running a command and
continues with the remaining steps. -/
theorem C4_fail_fast (w : Sys) (url dest : String) :
    (SetupTools.is_root w = false → SetupTools.haveExe w "sudo" = false →
      SetupTools.ensure_admin_linux w = (Outcome.exitWith 1, [])) ∧
    (InstallAikbt.have_cmd w "curl" = false →
      InstallAikbt.download_to w url dest = Outcome.exitWith 1) ∧
    (InstallAikbt.have_cmd w "curl" = true →
      w.exitCode (InstallAikbt.curlCmd url dest) = 0 →
      (w.sizeAfter dest = none ∨ ∃ n, w.sizeAfter dest = some n ∧ n < 10) →
      InstallAikbt.download_to w url dest =
        ⟨[(InstallAikbt.curlCmd url dest, true)], some 1⟩) ∧
    (SetupTools.haveExe w "brew" = false →
      SetupTools.install_on_macos w = Outcome.skip) ∧
    (SetupTools.haveExe w "winget" = false →
      SetupTools.install_on_windows w = Outcome.skip) ∧
    (∀ o : Outcome, (Outcome.exitWith 1).seq o = Outcome.exitWith 1) := by
  refine ⟨?_, ?_, ?_, ?_, ?_, ?_⟩
  · intro h hs
    simp [SetupTools.ensure_admin_linux, h, hs]
  · intro h
    rw [InstallAikbt.download_to, if_pos (by rw [h]; simp)]
  · intro h hcurl hsize
    rw [InstallAikbt.download_to, if_neg (by rw [h]; simp), runCmd_ok w _ _ hcurl,
      Outcome.seq_none _ _ rfl]
    rcases hsize with hs | ⟨n, hs, hn⟩
    · rw [hs]
      rfl
    · rw [hs]
      simp [Outcome.exitWith, hn]
  · intro h
    rw [SetupTools.install_on_macos, if_pos (by rw [h]; simp)]
  · intro h
    rw [SetupTools.install_on_windows, if_pos (by rw [h]; simp)]
  · intro o
    rfl

/-- Claim C4, witness: the fail-fast exits at a user without sudo and at a
root system without curl or with a 3-byte download, and the non-exiting
returns at a macOS system without brew and a Windows system without
winget. -/
theorem C4_fail_fast_witness :
    SetupTools.ensure_admin_linux sysLinuxUserNoSudo = (Outcome.exitWith 1, []) ∧
    InstallAikbt.download_to sysNoCurl InstallAikbt.AIK_BT_URL "/root/.lldb/aik_bt.py" =
      Outcome.exitWith 1 ∧
    InstallAikbt.download_to sysSmallDownload InstallAikbt.AIK_BT_URL "/root/.lldb/aik_bt.py" =
      ⟨[(InstallAikbt.curlCmd InstallAikbt.AIK_BT_URL "/root/.lldb/aik_bt.py", true)],
        some 1⟩ ∧
    SetupTools.install_on_macos sysMacNoBrew = Outcome.skip ∧
    SetupTools.install_on_windows sysWinNoWinget = Outcome.skip :=
  ⟨(C4_fail_fast sysLinuxUserNoSudo "u" "d").1 (by decide) (by decide),
    (C4_fail_fast sysNoCurl InstallAikbt.AIK_BT_URL "/root/.lldb/aik_bt.py").2.1 (by decide),
    (C4_fail_fast sysSmallDownload InstallAikbt.AIK_BT_URL "/root/.lldb/aik_bt.py").2.2.1
      (by decide) (by decide) (Or.inr ⟨3, by decide, by decide⟩),
    (C4_fail_fast sysMacNoBrew "u" "d").2.2.2.1 (by decide),
    (C4_fail_fast sysWinNoWinget "u" "d").2.2.2.2.1 (by decide)⟩

/-- Claim C6: when after the download command the destination file does not
exist or is smaller than 10 bytes, download_to terminates the process with
exit code 1 after only the curl command, and no later installer step runs:
whenever the package-installation stage completed normally (as root or via
sudo), the whole run of install_aikbt consists of the apt stage commands and
the one curl command, terminating with exit code 1 and never reaching the
second download or the update-alternatives step. -/
theorem C6_download_size_check (w : Sys)
    (hapt : (InstallAikbt.apt_install w ["lldb-15", "python3-lldb-15", "curl"]).exit = none)
    (hcurl : InstallAikbt.have_cmd w "curl" = true)
    (hc1 : w.exitCode (InstallAikbt.curlCmd InstallAikbt.AIK_BT_URL (w.homeDir ++ "/.lldb/aik_bt.py")) = 0)
    (hsize : w.sizeAfter (w.homeDir ++ "/.lldb/aik_bt.py") = none ∨
      ∃ n, w.sizeAfter (w.homeDir ++ "/.lldb/aik_bt.py") = some n ∧ n < 10) :
    InstallAikbt.download_to w InstallAikbt.AIK_BT_URL (w.homeDir ++ "/.lldb/aik_bt.py") =
      ⟨[(InstallAikbt.curlCmd InstallAikbt.AIK_BT_URL (w.homeDir ++ "/.lldb/aik_bt.py"), true)], some 1⟩ ∧
    (InstallAikbt.main w).exit = some 1 ∧
    (InstallAikbt.main w).trace =
      (InstallAikbt.apt_install w ["lldb-15", "python3-lldb-15", "curl"]).trace ++
        [(InstallAikbt.curlCmd InstallAikbt.AIK_BT_URL (w.homeDir ++ "/.lldb/aik_bt.py"), true)] := by
  have hdl : InstallAikbt.download_to w InstallAikbt.AIK_BT_URL (w.homeDir ++ "/.lldb/aik_bt.py") =
      ⟨[(InstallAikbt.curlCmd InstallAikbt.AIK_BT_URL (w.homeDir ++ "/.lldb/aik_bt.py"), true)], some 1⟩ := by
    rw [InstallAikbt.download_to, if_neg (by rw [hcurl]; simp), runCmd_ok w _ _ hc1,
      Outcome.seq_none _ _ rfl]
    rcases hsize with hs | ⟨n, hs, hn⟩
    · rw [hs]
      rfl
    · rw [hs]
      simp [Outcome.exitWith, hn]
  have hmain : InstallAikbt.main w =
      ⟨(InstallAikbt.apt_install w ["lldb-15", "python3-lldb-15", "curl"]).trace ++
        [(InstallAikbt.curlCmd InstallAikbt.AIK_BT_URL (w.homeDir ++ "/.lldb/aik_bt.py"), true)], some 1⟩ := by
    rw [InstallAikbt.main, hdl, Outcome.seq_none _ _ hapt]
    rw [Outcome.seq_some _ _ 1 rfl, Outcome.seq_some _ _ 1 rfl, Outcome.seq_some _ _ 1 rfl]
  exact ⟨hdl, by rw [hmain], by rw [hmain]⟩

/-- Claim C6, witness: a concrete root system whose downloads come out with
3 bytes, and one where they do not appear at all; both runs end with exit
code 1 right after the first curl command. -/
theorem C6_download_size_check_witness :
    (InstallAikbt.main sysSmallDownload).exit = some 1 ∧
    (InstallAikbt.main sysAbsentDownload).exit = some 1 ∧
    (InstallAikbt.main sysSmallDownload).trace =
      (InstallAikbt.apt_install sysSmallDownload
        ["lldb-15", "python3-lldb-15", "curl"]).trace ++
        [(InstallAikbt.curlCmd InstallAikbt.AIK_BT_URL
          (sysSmallDownload.homeDir ++ "/.lldb/aik_bt.py"), true)] :=
  ⟨(C6_download_size_check sysSmallDownload (by decide) (by decide) (by decide)
      (Or.inr ⟨3, by decide, by decide⟩)).2.1,
    (C6_download_size_check sysAbsentDownload (by decide) (by decide) (by decide)
      (Or.inl (by decide))).2.1,
    (C6_download_size_check sysSmallDownload (by decide) (by decide) (by decide)
      (Or.inr ⟨3, by decide, by decide⟩)).2.2⟩

/-- Claim C7: ensure_venv runs the venv creation command exactly when no
directory exists at the venv path, reuses the directory otherwise, and in
both cases the returned interpreter and pip paths lie inside that
directory. -/
theorem C7_ensure_venv_creation (w : Sys) (p : String) :
    (([w.sysExecutable, "-m", "venv", p], true) ∈ (SetupTools.ensure_venv w p).1.trace ↔
      w.isDir p = false) ∧
    (∃ r, (SetupTools.ensure_venv w p).2.1 = p ++ r) ∧
    (∃ r, (SetupTools.ensure_venv w p).2.2 = p ++ r) := by
  refine ⟨?_, ?_, ?_⟩
  · by_cases hd : w.isDir p
    · simp [SetupTools.ensure_venv, hd, Outcome.seq, runCmd, Outcome.skip]
    · have hd' : w.isDir p = false := by
        revert hd
        cases w.isDir p <;> simp
      by_cases he : w.exitCode [w.sysExecutable, "-m", "venv", p] = 0
      · simp [SetupTools.ensure_venv, hd', Outcome.seq, runCmd, he]
      · simp [SetupTools.ensure_venv, hd', Outcome.seq, runCmd, he]
  · by_cases hw : SetupTools.is_windows w
    · refine ⟨"\\" ++ ("Scripts" ++ ("\\" ++ "python.exe")), ?_⟩
      simp [SetupTools.ensure_venv, SetupTools.pathJoin, hw, String.append_assoc]
    · refine ⟨"/" ++ ("bin" ++ ("/" ++ "python")), ?_⟩
      simp [SetupTools.ensure_venv, SetupTools.pathJoin, hw, String.append_assoc]
  · by_cases hw : SetupTools.is_windows w
    · refine ⟨"\\" ++ ("Scripts" ++ ("\\" ++ "pip.exe")), ?_⟩
      simp [SetupTools.ensure_venv, SetupTools.pathJoin, hw, String.append_assoc]
    · refine ⟨"/" ++ ("bin" ++ ("/" ++ "pip")), ?_⟩
      simp [SetupTools.ensure_venv, SetupTools.pathJoin, hw, String.append_assoc]

/-- Claim C7, witness: at a concrete system without the venv directory the
creation command is in the trace. -/
theorem C7_ensure_venv_creation_witness :
    ([sysLinuxRoot.sysExecutable, "-m", "venv", "/opt/course-venv"], true) ∈
      (SetupTools.ensure_venv sysLinuxRoot "/opt/course-venv").1.trace :=
  (C7_ensure_venv_creation sysLinuxRoot "/opt/course-venv").1.mpr (by decide)

/-- Claim C9: the update-alternatives command of install_aikbt.py and the
winget install commands of setup_tools.py are run without failure checking:
whatever their exit codes, these steps never terminate the script, and the
exit of anything sequenced after them is whatever the rest produces. -/
theorem C9_unchecked_commands_never_terminate (w : Sys) :
    (InstallAikbt.setup_update_alternatives w).exit = none ∧
    (SetupTools.install_on_windows w).exit = none ∧
    (∀ o : Outcome,
      ((InstallAikbt.setup_update_alternatives w).seq o).exit = o.exit ∧
      ((SetupTools.install_on_windows w).seq o).exit = o.exit) := by
  have h1 : (InstallAikbt.setup_update_alternatives w).exit = none := by
    rw [InstallAikbt.setup_update_alternatives]
    split_ifs <;> simp [runCmd, Outcome.skip]
  have h2 : (SetupTools.install_on_windows w).exit = none := by
    rw [SetupTools.install_on_windows]
    split_ifs
    · rfl
    · simp [SetupTools.WINGET_PACKAGES, SetupTools.wingetCmd, List.foldl, runCmd,
        Outcome.seq, Outcome.skip]
  exact ⟨h1, h2, fun o =>
    ⟨by rw [Outcome.seq_none _ _ h1], by rw [Outcome.seq_none _ _ h2]⟩⟩

/-- Claim C10, counterexample to the claim as stated: on the empty command
list the unguarded indexing cmd[0] raises IndexError before the try block,
modelled as the none result, so first_line is not total on all command
lists; and on a command whose output is whitespace only, hence nonempty,
first_line returns the fixed string unknown, not the first line of the
output. -/
theorem C10_first_line_counterexample :
    SetupTools.first_line sysLinuxRoot [] = none ∧
    sysBlankOutput.checkOutput ["zip", "-v"] = some [' ', '\n'] ∧
    SetupTools.haveExe sysBlankOutput "zip" = true ∧
    SetupTools.first_line sysBlankOutput ["zip", "-v"] = some "unknown" := by
  decide

/-- Claim C10 (amended): on every nonempty command list first_line returns a
value and never raises: the fixed string describing absence when the
executable is not on PATH, the fixed string unknown when the invocation
raises or the stripped output is empty, and otherwise the first line of the
stripped output. -/
theorem C10_first_line_total (w : Sys) (c0 : String) (rest : List String) :
    (SetupTools.first_line w (c0 :: rest)).isSome = true ∧
    (SetupTools.haveExe w c0 = false →
      SetupTools.first_line w (c0 :: rest) = some "not available") ∧
    (SetupTools.haveExe w c0 = true → w.checkOutput (c0 :: rest) = none →
      SetupTools.first_line w (c0 :: rest) = some "unknown") ∧
    (∀ out, SetupTools.haveExe w c0 = true → w.checkOutput (c0 :: rest) = some out →
      pyStrip out = [] → SetupTools.first_line w (c0 :: rest) = some "unknown") ∧
    (∀ out, SetupTools.haveExe w c0 = true → w.checkOutput (c0 :: rest) = some out →
      pyStrip out ≠ [] → SetupTools.first_line w (c0 :: rest) =
        some (String.mk ((pySplitlines (pyStrip out)).headD []))) := by
  refine ⟨by simp [SetupTools.first_line], ?_, ?_, ?_, ?_⟩
  · intro h
    simp [SetupTools.first_line, h]
  · intro h hout
    simp [SetupTools.first_line, h, hout]
  · intro out h hout hstrip
    simp [SetupTools.first_line, h, hout, hstrip]
  · intro out h hout hstrip
    simp [SetupTools.first_line, h, hout, hstrip]

/-- Claim C10, witness: a version command whose first output line contains
spaces yields that whole line, not its first word. -/
theorem C10_first_line_total_witness :
    SetupTools.first_line sysLinuxRoot ["lldb", "--version"] =
      some "lldb version 15.0.7" := by
  have h := (C10_first_line_total sysLinuxRoot "lldb" ["--version"]).2.2.2.2
    "lldb version 15.0.7\n".data (by decide) (by decide) (by decide)
  rw [h]
  decide

theorem checkedOk_nil (w : Sys) : checkedOk w [] :=
  fun _ hc => absurd hc (by simp)

theorem checkedOk_append {w : Sys} {t₁ t₂ : List (Cmd × Bool)}
    (h₁ : checkedOk w t₁) (h₂ : checkedOk w t₂) : checkedOk w (t₁ ++ t₂) := by
  intro c hc
  rcases List.mem_append.mp hc with h | h
  · exact h₁ c h
  · exact h₂ c h

theorem good_skip (w : Sys) : GoodOutcome w Outcome.skip :=
  ⟨fun _ => checkedOk_nil w, fun n hn => by simp [Outcome.skip] at hn⟩

theorem good_exitWith_one (w : Sys) : GoodOutcome w (Outcome.exitWith 1) := by
  refine ⟨fun h => by simp [Outcome.exitWith] at h, fun n hn => ?_⟩
  simp [Outcome.exitWith] at hn
  exact Or.inl hn.symm

theorem good_runCmd (w : Sys) (cmd : Cmd) (ch : Bool) :
    GoodOutcome w (runCmd w cmd ch) := by
  by_cases hch : ch = true
  · subst hch
    by_cases he : w.exitCode cmd = 0
    · rw [runCmd_ok w _ _ he]
      refine ⟨fun _ => ?_, fun n hn => by simp at hn⟩
      intro c hc
      simp at hc
      rcases hc with ⟨rfl, _⟩
      exact he
    · rw [runCmd_fail w _ he]
      refine ⟨fun hex => by simp at hex, fun n hn => ?_⟩
      simp at hn
      exact Or.inr ⟨cmd, [], by simp, by rw [hn], checkedOk_nil w⟩
  · have hch' : ch = false := by
      revert hch
      cases ch <;> simp
    subst hch'
    rw [runCmd_unchecked]
    refine ⟨fun _ => ?_, fun n hn => by simp at hn⟩
    intro c hc
    simp at hc

theorem good_seq {w : Sys} {o₁ o₂ : Outcome}
    (g₁ : GoodOutcome w o₁) (g₂ : GoodOutcome w o₂) : GoodOutcome w (o₁.seq o₂) := by
  rcases he : o₁.exit with _ | c
  · rw [Outcome.seq_none _ _ he]
    constructor
    · intro hex
      exact checkedOk_append (g₁.1 he) (g₂.1 hex)
    · intro n hn
      rcases g₂.2 n hn with h1 | ⟨c', pre, hpre, hc', hok⟩
      · exact Or.inl h1
      · refine Or.inr ⟨c', o₁.trace ++ pre, ?_, hc', checkedOk_append (g₁.1 he) hok⟩
        show o₁.trace ++ o₂.trace = (o₁.trace ++ pre) ++ [(c', true)]
        rw [hpre, List.append_assoc]
  · rw [Outcome.seq_some _ _ c he]
    exact g₁

theorem good_ite (P : Prop) [Decidable P] {w : Sys} {a b : Outcome}
    (ha : GoodOutcome w a) (hb : GoodOutcome w b) :
    GoodOutcome w (if P then a else b) := by
  split
  · exact ha
  · exact hb

theorem good_foldl {α : Type} {w : Sys} (f : Outcome → α → Outcome)
    (hf : ∀ o a, GoodOutcome w o → GoodOutcome w (f o a)) :
    ∀ (l : List α) (o : Outcome), GoodOutcome w o → GoodOutcome w (l.foldl f o) := by
  intro l
  induction l with
  | nil =>
      intro o ho
      simpa using ho
  | cons x xs ih =>
      intro o ho
      rw [List.foldl_cons]
      exact ih _ (hf o x ho)

theorem good_apt_install (w : Sys) (pkgs : List String) :
    GoodOutcome w (InstallAikbt.apt_install w pkgs) := by
  rw [InstallAikbt.apt_install]
  exact good_ite _ (good_seq (good_runCmd w _ _) (good_runCmd w _ _))
    (good_ite _ (good_exitWith_one w) (good_seq (good_runCmd w _ _) (good_runCmd w _ _)))

theorem good_download_to (w : Sys) (url dest : String) :
    GoodOutcome w (InstallAikbt.download_to w url dest) := by
  rw [InstallAikbt.download_to]
  refine good_ite _ (good_exitWith_one w) (good_seq (good_runCmd w _ _) ?_)
  cases hs : w.sizeAfter dest with
  | none => exact good_exitWith_one w
  | some n => exact good_ite _ (good_exitWith_one w) (good_skip w)

theorem good_setup_update_alternatives (w : Sys) :
    GoodOutcome w (InstallAikbt.setup_update_alternatives w) := by
  rw [InstallAikbt.setup_update_alternatives]
  exact good_ite _ (good_skip w) (good_ite _ (good_skip w)
    (good_ite _ (good_runCmd w _ _) (good_runCmd w _ _)))

theorem good_main_aik (w : Sys) : GoodOutcome w (InstallAikbt.main w) := by
  rw [InstallAikbt.main]
  exact good_seq
    (good_seq
      (good_seq (good_seq (good_apt_install w _) (good_download_to w _ _))
        (good_download_to w _ _))
      (good_skip w))
    (good_seq (good_setup_update_alternatives w) (good_skip w))

theorem good_ensure_admin (w : Sys) :
    GoodOutcome w (SetupTools.ensure_admin_linux w).1 := by
  rw [SetupTools.ensure_admin_linux]
  split_ifs
  · exact good_skip w
  · exact good_skip w
  · exact good_exitWith_one w

theorem good_install_on_ubuntu (w : Sys) :
    GoodOutcome w (SetupTools.install_on_ubuntu w) := by
  rw [SetupTools.install_on_ubuntu]
  exact good_seq (good_ensure_admin w) (good_seq (good_runCmd w _ _) (good_runCmd w _ _))

theorem good_install_on_macos (w : Sys) :
    GoodOutcome w (SetupTools.install_on_macos w) := by
  rw [SetupTools.install_on_macos]
  exact good_ite _ (good_skip w) (good_seq (good_runCmd w _ _) (good_runCmd w _ _))

theorem good_install_on_windows (w : Sys) :
    GoodOutcome w (SetupTools.install_on_windows w) := by
  rw [SetupTools.install_on_windows]
  refine good_ite _ (good_skip w) (good_foldl _ ?_ _ _ (good_skip w))
  intro o a ho
  rcases a with ⟨name, _ | pid⟩
  · exact ho
  · exact good_seq ho (good_runCmd w _ _)

theorem good_ensure_venv (w : Sys) (p : String) :
    GoodOutcome w (SetupTools.ensure_venv w p).1 := by
  rw [SetupTools.ensure_venv]
  exact good_seq (good_ite _ (good_runCmd w _ _) (good_skip w)) (good_runCmd w _ _)

theorem good_pip_install_in_venv (w : Sys) (pip_bin : String) :
    GoodOutcome w (SetupTools.pip_install_in_venv w pip_bin) := by
  rw [SetupTools.pip_install_in_venv]
  exact good_runCmd w _ _

theorem good_symlink (w : Sys) (p : String) :
    GoodOutcome w (SetupTools.symlink_cli_tools_linux_shared w p) := by
  rw [SetupTools.symlink_cli_tools_linux_shared]
  refine good_ite _ (good_skip w) (good_ite _ (good_skip w)
    (good_seq (good_ensure_admin w) (good_foldl _ ?_ _ _ (good_skip w))))
  intro o a ho
  exact good_ite _ (good_seq ho (good_runCmd w _ _)) ho

theorem good_main_setup (w : Sys) : GoodOutcome w (SetupTools.main w) := by
  rw [SetupTools.main]
  by_cases hl : SetupTools.is_linux w
  · simp only [hl]
    exact good_seq (good_seq (good_seq (good_seq (good_install_on_ubuntu w)
      (good_ensure_venv w _)) (good_pip_install_in_venv w _)) (good_symlink w _))
      (good_skip w)
  · simp only [Bool.not_eq_true] at hl
    simp only [hl]
    by_cases hm : SetupTools.is_macos w
    · simp only [hm]
      exact good_seq (good_seq (good_seq (good_seq (good_install_on_macos w)
        (good_ensure_venv w _)) (good_pip_install_in_venv w _)) (good_symlink w _))
        (good_skip w)
    · simp only [Bool.not_eq_true] at hm
      simp only [hm]
      by_cases hw : SetupTools.is_windows w
      · simp only [hw]
        exact good_seq (good_seq (good_seq (good_seq (good_install_on_windows w)
          (good_ensure_venv w _)) (good_pip_install_in_venv w _)) (good_symlink w _))
          (good_skip w)
      · simp only [Bool.not_eq_true] at hw
        simp only [hw]
        exact good_skip w

/-- Claim C5, counterexample to the claim as stated: in a run of
install_aikbt.py where every command succeeds except update-alternatives,
which exits 7, that non-zero exit code is not propagated: the script
finishes with exit status 0. -/
theorem C5_unchecked_exit_counterexample :
    ((InstallAikbt.uaCmd, false) ∈ (InstallAikbt.main sysUaFails).trace) ∧
    sysUaFails.exitCode InstallAikbt.uaCmd = 7 ∧
    (InstallAikbt.main sysUaFails).exitStatus = 0 := by
  decide

/-- Claim C5 (amended): for both scripts, when the run completes normally
the exit status is 0 and every command run with failure checking exited 0;
when the run terminates, the exit code is either 1 (a missing-precondition
exit) or the exit code of the failing checked command, which is the last
command of the trace, every checked command before it having exited 0 - so
the exit code of the first failing checked command is propagated unchanged,
and commands run without checking never influence the exit status. -/
theorem C5_exit_code_propagation (w : Sys) :
    GoodOutcome w (InstallAikbt.main w) ∧ GoodOutcome w (SetupTools.main w) ∧
    (∀ o : Outcome, o.exit = none → o.exitStatus = 0) :=
  ⟨good_main_aik w, good_main_setup w, fun o h => by rw [Outcome.exitStatus, h]; rfl⟩

/-- Claim C5, witness: a run of install_aikbt.py in which every command
succeeds completes normally, with exit status 0. -/
theorem C5_exit_code_propagation_witness :
    (InstallAikbt.main sysLinuxRoot).exit = none ∧
    (InstallAikbt.main sysLinuxRoot).exitStatus = 0 :=
  ⟨by decide,
    (C5_exit_code_propagation sysLinuxRoot).2.2 (InstallAikbt.main sysLinuxRoot) (by decide)⟩
